import Mathlib

/-!
Shallow embedding of the FeedbackForge backend's classification-with-fallback
pipeline (`src/unnamed/part_002`, the sentiment-analysis service), the feedback
schema middleware (`src/models/feedbackModel.js`) and the analytics controller
(`src/controllers/analyticsController.js`).

Modelling conventions:
* JS numbers are embedded as `ℚ` (exact arithmetic); `Number.toFixed(d)` with
  its tie-toward-larger behaviour is `roundTo d` below, built on Mathlib's
  `round` (`⌊x + 1/2⌋`).
* A JS value that may be `undefined`/`null` is an `Option`.
* A JS division whose result is not a finite number (`NaN`, `±Infinity` — in
  particular `0/0`) is modelled by `jsDiv` returning `none`.
* JS strings are Lean `String`s; case-insensitive matching, substring search
  and lexicographic comparison are done on the underlying `Char` lists
  (`jsToLower`, `includesSub`, `charListLt`), matching the ASCII behaviour of
  `String.prototype.toLowerCase`, `String.prototype.includes` and MongoDB's
  string ordering.
-/

namespace FeedbackForge

/-- ASCII lower-casing of one character, as `toLowerCase` acts on ASCII. -/
def asciiLower (c : Char) : Char :=
  if 'A' ≤ c ∧ c ≤ 'Z' then Char.ofNat (c.toNat + 32) else c

/-- `s.toLowerCase()` restricted to ASCII: lower-case every character. -/
def jsToLower (s : String) : String := ⟨s.data.map asciiLower⟩

/-- `hay.includes(needle)`: `needle` occurs as a contiguous substring. -/
def includesSub (hay needle : String) : Bool := decide (needle.data <:+: hay.data)

/-- The characters removed by `String.prototype.trim` (ASCII whitespace). -/
def jsWhitespace (c : Char) : Bool :=
  c = ' ' || c = '\t' || c = '\n' || c = '\r' || c = '\x0b' || c = '\x0c'

/-- `s.trim() === ''`: every character of `s` is whitespace (true for `""`). -/
def trimIsEmpty (s : String) : Bool := s.data.all jsWhitespace

/-- Strict lexicographic comparison of character lists; this is how MongoDB
compares two ASCII string values when sorting on a string field. -/
def charListLt : List Char → List Char → Bool
  | [], [] => false
  | [], _ :: _ => true
  | _ :: _, [] => false
  | a :: as, b :: bs => if a < b then true else if b < a then false else charListLt as bs

/-- `toFixed d` on an exact rational: round to `d` decimal places, ties toward
the larger value, exactly as ECMA-262 specifies for `Number.prototype.toFixed`
(the spec picks the larger candidate on a tie). -/
def roundTo (d : ℕ) (x : ℚ) : ℚ := ((round (x * 10 ^ d) : ℤ) : ℚ) / 10 ^ d

/-- JS division returning `none` when the result is not a finite number
(divisor `0` gives `NaN` or `±Infinity`). -/
def jsDiv (a b : ℚ) : Option ℚ := if b = 0 then none else some (a / b)

/-- `v || d` for a numeric-or-missing JS value: `undefined` and `0` are both
falsy, so a present `0` falls through to the default. -/
def jsOrNum (v : Option ℚ) (d : ℚ) : ℚ :=
  match v with
  | none => d
  | some x => if x = 0 then d else x

/-! ## The sentiment-analysis service (`src/unnamed/part_002`)

`validateAnalysisResult`, `getFallbackAnalysis` and `analyzeFeedbackSentiment`
are transcribed from the service file.  An `AnalysisResult` is the service's
output object: the seven analysis fields every path produces. -/

/-- The raw candidate analysis parsed from the AI response: every field may be
missing or (for the scores) present with any numeric value; `categories` /
`emotions` are `none` when the corresponding JS value is not an array. -/
structure RawAnalysis where
  sentiment : Option String
  sentimentScore : Option ℚ
  categories : Option (List String)
  emotions : Option (List String)
  urgency : Option String
  actionableInsights : Option String
  confidenceScore : Option ℚ
deriving DecidableEq

/-- The seven analysis fields returned by both the AI path (after validation)
and the heuristic fallback path. -/
structure AnalysisResult where
  sentiment : String
  sentimentScore : ℚ
  categories : List String
  emotions : List String
  urgency : String
  actionableInsights : String
  confidenceScore : ℚ
deriving DecidableEq

/-- `const validSentiments = ['positive', 'neutral', 'negative']`. -/
def validSentiments : List String := ["positive", "neutral", "negative"]

/-- `const validUrgencies = ['low', 'medium', 'high', 'critical']`. -/
def validUrgencies : List String := ["low", "medium", "high", "critical"]

/-- The fixed 10-value category taxonomy (schema enum / AI prompt). -/
def categoryTaxonomy : List String :=
  ["service_quality", "wait_time", "staff_behavior", "product_features", "pricing",
   "technical_issues", "security_concerns", "user_experience", "account_management",
   "transaction_issues"]

/-- The fixed 12-value emotion taxonomy (schema enum / AI prompt). -/
def emotionTaxonomy : List String :=
  ["satisfied", "frustrated", "angry", "happy", "disappointed", "confused",
   "impressed", "anxious", "grateful", "concerned", "excited", "worried"]

/-- `validateAnalysisResult(analysis)`: replace an invalid `sentiment` /
`urgency` by `'neutral'` / `'low'`, clamp the two scores to `[0,100]` with
`Math.max(0, Math.min(100, x || default))`, replace a non-array `categories` /
`emotions` by `[]`, and replace a falsy or whitespace-only
`actionableInsights` by the fixed review placeholder. -/
def validateAnalysisResult (analysis : RawAnalysis) : AnalysisResult where
  sentiment :=
    match analysis.sentiment with
    | some s => if s ∈ validSentiments then s else "neutral"
    | none => "neutral"
  sentimentScore := max 0 (min 100 (jsOrNum analysis.sentimentScore 50))
  categories := analysis.categories.getD []
  emotions := analysis.emotions.getD []
  urgency :=
    match analysis.urgency with
    | some u => if u ∈ validUrgencies then u else "low"
    | none => "low"
  actionableInsights :=
    match analysis.actionableInsights with
    | some s => if trimIsEmpty s then "Review feedback and determine appropriate action." else s
    | none => "Review feedback and determine appropriate action."
  confidenceScore := max 0 (min 100 (jsOrNum analysis.confidenceScore 75))

/-- The category keyword table of `getFallbackAnalysis`, in source order. -/
def fallbackCategories (text : String) : List String :=
  (if includesSub text "app" || includesSub text "website" || includesSub text "online"
    then ["technical_issues"] else []) ++
  (if includesSub text "staff" || includesSub text "rude" || includesSub text "helpful"
    then ["staff_behavior"] else []) ++
  (if includesSub text "wait" || includesSub text "queue" || includesSub text "slow"
    then ["wait_time"] else []) ++
  (if includesSub text "atm" || includesSub text "transaction" || includesSub text "transfer"
    then ["transaction_issues"] else [])

/-- The emotion keyword table of `getFallbackAnalysis`, in source order. -/
def fallbackEmotions (text : String) : List String :=
  (if includesSub text "frustrat" || includesSub text "annoying" then ["frustrated"] else []) ++
  (if includesSub text "angry" || includesSub text "upset" then ["angry"] else []) ++
  (if includesSub text "happy" || includesSub text "great" then ["happy"] else []) ++
  (if includesSub text "satisfied" || includesSub text "good" then ["satisfied"] else []) ++
  (if includesSub text "disappoint" then ["disappointed"] else [])

/-- `getFallbackAnalysis(feedbackText, rating)`: the deterministic heuristic
classifier used when the AI call fails.  Sentiment and score come from the
rating, categories/emotions from case-insensitive keyword matching on the
lower-cased comment, urgency from the rating and the urgency keywords. -/
def getFallbackAnalysis (feedbackText : String) (rating : ℚ) : AnalysisResult :=
  let text := jsToLower feedbackText
  let sentiment := if rating ≥ 4 then "positive" else if rating ≤ 2 then "negative" else "neutral"
  let sentimentScore : ℚ := if rating ≥ 4 then rating * 20 else if rating ≤ 2 then rating * 20 else 60
  let categories :=
    if (fallbackCategories text).isEmpty then ["service_quality"] else fallbackCategories text
  let emotions :=
    if (fallbackEmotions text).isEmpty then [if rating ≥ 4 then "satisfied" else "disappointed"]
    else fallbackEmotions text
  let urgency :=
    if decide (rating = 1) || includesSub text "urgent" || includesSub text "immediately" then "high"
    else if decide (rating = 2) then "medium"
    else "low"
  { sentiment := sentiment
    sentimentScore := sentimentScore
    categories := categories.take 3
    emotions := emotions.take 3
    urgency := urgency
    actionableInsights :=
      "Review this " ++ sentiment ++ " feedback regarding " ++ categories.headD "" ++
        ". Customer rated " ++ toString rating ++ "/5 stars."
    confidenceScore := 60 }

/-- Outcome of the external OpenAI call inside `analyzeFeedbackSentiment`'s
`try` block: either a parsed JSON object, or any failure (transport error,
timeout, non-JSON body, any throw before the `return`). -/
inductive AICallOutcome where
  | success (raw : RawAnalysis)
  | failure
deriving DecidableEq

/-- `analyzeFeedbackSentiment(feedbackText, rating, serviceType)`: on a parsed
response, return `validateAnalysisResult` of it; on any error caught by the
surrounding `try/catch`, return `getFallbackAnalysis(feedbackText, rating)`.
The function is total: no outcome makes it throw to its caller. -/
def analyzeFeedbackSentiment (feedbackText : String) (rating : ℚ)
    (outcome : AICallOutcome) : AnalysisResult :=
  match outcome with
  | .success raw => validateAnalysisResult raw
  | .failure => getFallbackAnalysis feedbackText rating

/-! ## The feedback record and schema middleware (`src/models/feedbackModel.js`)

Fields with a schema `enum` are embedded as Lean inductives; `status` and
`urgency` carry schema defaults, so they are always present; `sentiment` has
no default and is optional; `rating`/`createdAt` are required. -/

/-- Schema enum `['pending', 'in_progress', 'resolved', 'closed']`. -/
inductive Status where
  | pending | inProgress | resolved | closed
deriving DecidableEq

/-- Schema enum `['positive', 'neutral', 'negative']`. -/
inductive SentimentLabel where
  | positive | neutral | negative
deriving DecidableEq

/-- Schema enum `['low', 'medium', 'high', 'critical']`. -/
inductive Urgency where
  | low | medium | high | critical
deriving DecidableEq

/-- The string stored in MongoDB for each urgency level. -/
def Urgency.str : Urgency → String
  | .low => "low"
  | .medium => "medium"
  | .high => "high"
  | .critical => "critical"

/-- A stored feedback document, restricted to the fields the analytics
controller reads. -/
structure FeedbackRecord where
  rating : ℚ
  serviceType : Option String
  branch : Option String
  createdAt : ℤ
  status : Status
  sentiment : Option SentimentLabel
  sentimentScore : Option ℚ
  categories : List String
  emotions : List String
  urgency : Urgency
  actionableInsights : Option String
deriving DecidableEq

/-- The standing exclusion `{ status: { $ne: 'closed' } }` that the schema's
`pre(/^find/)` hook merges into every `find` query and the `pre('aggregate')`
hook unshifts (as a `$match`) onto every aggregation pipeline. -/
def notClosed (r : FeedbackRecord) : Bool := decide (r.status ≠ Status.closed)

/-- Milliseconds in a day, `24 * 60 * 60 * 1000`. -/
def dayMs : ℤ := 24 * 60 * 60 * 1000

/-- An optional `startDate`/`endDate` pair from the query string. -/
structure DateFilter where
  startDate : Option ℤ
  endDate : Option ℤ
deriving DecidableEq

/-- The `createdAt` criteria built when a report defaults to the trailing 30
days: if either bound is given use the given bounds, otherwise
`createdAt ≥ now − 30 days`. -/
def createdAtOkDefault30 (now : ℤ) (f : DateFilter) (t : ℤ) : Bool :=
  match f.startDate, f.endDate with
  | none, none => decide (now - 30 * dayMs ≤ t)
  | s, e => (s.elim true fun a => decide (a ≤ t)) && (e.elim true fun b => decide (t ≤ b))

/-- The `createdAt` criteria for reports that add date bounds only when one is
supplied (no default window). -/
def createdAtOkOpt (f : DateFilter) (t : ℤ) : Bool :=
  (f.startDate.elim true fun a => decide (a ≤ t)) && (f.endDate.elim true fun b => decide (t ≤ b))

/-- An optional equality filter against an optional stored field. -/
def optMatches {α : Type} [DecidableEq α] (param : Option α) (field : Option α) : Bool :=
  param.elim true fun v => field == some v

/-! ## The nine report queries (`src/controllers/analyticsController.js`)

Each `...Query` function is the effective record-selection of one report:
its own `$match`/`find` criteria, with the schema middleware's
`status ≠ 'closed'` predicate composed in front (`pre('aggregate')` for the
aggregation pipelines, `pre(/^find/)` for the two `find`-based reports). -/

/-- Report 1, `getSentimentOverview`: analyzed records in the date window,
optionally restricted by `serviceType`/`branch`. -/
def sentimentOverviewQuery (now : ℤ) (f : DateFilter) (serviceType branch : Option String)
    (db : List FeedbackRecord) : List FeedbackRecord :=
  db.filter fun r =>
    notClosed r && r.sentiment.isSome && createdAtOkDefault30 now f r.createdAt &&
      optMatches serviceType r.serviceType && optMatches branch r.branch

/-- Report 2, `getServiceTypeMetrics`: analyzed records, date bounds only when
supplied. -/
def serviceTypeMetricsQuery (f : DateFilter) (db : List FeedbackRecord) : List FeedbackRecord :=
  db.filter fun r => notClosed r && r.sentiment.isSome && createdAtOkOpt f r.createdAt

/-- Report 3, `getSentimentTrends`: analyzed records in the trailing `days`
window. -/
def sentimentTrendsQuery (now : ℤ) (days : ℤ) (db : List FeedbackRecord) : List FeedbackRecord :=
  db.filter fun r =>
    notClosed r && decide (now - days * dayMs ≤ r.createdAt) && r.sentiment.isSome

/-- Report 4, `getCategoryInsights`: records with a non-empty `categories`
array. -/
def categoryInsightsQuery (f : DateFilter) (db : List FeedbackRecord) : List FeedbackRecord :=
  db.filter fun r => notClosed r && !r.categories.isEmpty && createdAtOkOpt f r.createdAt

/-- Report 5, `getEmotionAnalysis`: records with a non-empty `emotions` array,
optionally restricted by `serviceType`. -/
def emotionAnalysisQuery (f : DateFilter) (serviceType : Option String)
    (db : List FeedbackRecord) : List FeedbackRecord :=
  db.filter fun r =>
    notClosed r && !r.emotions.isEmpty && createdAtOkOpt f r.createdAt &&
      optMatches serviceType r.serviceType

/-- Report 6, `getUrgencyDashboard`: its `$match` spells out
`status: { $ne: 'closed' }` itself (`urgency` always exists via the schema
default), and the aggregate hook prepends the same predicate again. -/
def urgencyDashboardQuery (db : List FeedbackRecord) : List FeedbackRecord :=
  db.filter fun r => notClosed r && decide (r.status ≠ Status.closed)

/-- Report 7, `getPulseMetrics`: a `find` over the trailing `days` window
(`rating` is schema-required, so `rating: { $exists: true }` always holds). -/
def pulseMetricsQuery (now : ℤ) (days : ℤ) (db : List FeedbackRecord) : List FeedbackRecord :=
  db.filter fun r => notClosed r && decide (now - days * dayMs ≤ r.createdAt)

/-- Report 8, `getActionableInsights` record selection: a `find` for a present,
non-empty `actionableInsights`, optionally restricted by `urgency` and
`serviceType`. -/
def actionableInsightsQuery (urgency : Option Urgency) (serviceType : Option String)
    (db : List FeedbackRecord) : List FeedbackRecord :=
  db.filter fun r =>
    notClosed r && (r.actionableInsights.elim false fun s => s != "") &&
      (urgency.elim true fun u => u == r.urgency) && optMatches serviceType r.serviceType

/-- Report 9, `getBranchComparison`: records with a present non-empty `branch`
and a `sentiment`, over the supplied dates or the trailing `days` window. -/
def branchComparisonQuery (now : ℤ) (days : ℤ) (f : DateFilter)
    (db : List FeedbackRecord) : List FeedbackRecord :=
  db.filter fun r =>
    notClosed r && (r.branch.elim false fun b => b != "") && r.sentiment.isSome &&
      (match f.startDate, f.endDate with
       | none, none => decide (now - days * dayMs ≤ r.createdAt)
       | s, e => (s.elim true fun a => decide (a ≤ r.createdAt)) &&
           (e.elim true fun b => decide (r.createdAt ≤ b)))

/-! ## Sentiment Overview computation (report 1)

`$group: { _id: '$sentiment', count, avgRating, avgSentimentScore }` followed
by `$sort: { _id: 1 }` emits one row per sentiment value that occurs in the
matched set, in ascending (alphabetical) `_id` order.  The controller then
derives percentages and the count-weighted overall averages. -/

/-- Count of matched records whose `sentiment` equals `s`. -/
def sentCount (ms : List FeedbackRecord) (s : SentimentLabel) : ℕ :=
  (ms.filter fun r => decide (r.sentiment = some s)).length

/-- The three sentiment values in the `$sort: { _id: 1 }` (alphabetical)
order in which the `$group` output is returned. -/
def sortedSentLabels : List SentimentLabel :=
  [SentimentLabel.negative, SentimentLabel.neutral, SentimentLabel.positive]

/-- The groups the aggregation emits: sentiments with at least one matched
record (a sentiment absent from the data produces no row). -/
def overviewGroups (ms : List FeedbackRecord) : List SentimentLabel :=
  sortedSentLabels.filter fun s => decide (sentCount ms s ≠ 0)

/-- `totalFeedback = sentimentStats.reduce((sum, s) => sum + s.count, 0)`. -/
def overviewTotal (ms : List FeedbackRecord) : ℕ :=
  ((overviewGroups ms).map (sentCount ms)).sum

/-- One group's `percentage`:
`totalFeedback > 0 ? parseFloat(((count / total) * 100).toFixed(2)) : 0`. -/
def overviewPercentage (ms : List FeedbackRecord) (s : SentimentLabel) : ℚ :=
  if 0 < overviewTotal ms then roundTo 2 ((sentCount ms s : ℚ) / overviewTotal ms * 100) else 0

/-- The sum of the `percentage` values over all emitted rows. -/
def overviewPercentageSum (ms : List FeedbackRecord) : ℚ :=
  ((overviewGroups ms).map (overviewPercentage ms)).sum

/-- Sum of the (always present) ratings of a sentiment group. -/
def groupRatingSum (ms : List FeedbackRecord) (s : SentimentLabel) : ℚ :=
  ((ms.filter fun r => decide (r.sentiment = some s)).map (·.rating)).sum

/-- A group's `$avg: '$sentimentScore'`: MongoDB averages the numeric values
present and yields `null` for a group with no numeric value. -/
def groupScoreAvg (ms : List FeedbackRecord) (s : SentimentLabel) : Option ℚ :=
  let xs := (ms.filter fun r => decide (r.sentiment = some s)).filterMap (·.sentimentScore)
  if xs.isEmpty then none else some (xs.sum / xs.length)

/-- `sentimentStats.reduce((sum, s) => sum + s.avgRating * s.count, 0)`. -/
def overviewRatingNumerator (ms : List FeedbackRecord) : ℚ :=
  ((overviewGroups ms).map fun s =>
    groupRatingSum ms s / sentCount ms s * sentCount ms s).sum

/-- `sentimentStats.reduce((sum, s) => sum + s.avgSentimentScore * s.count, 0)`
(a `null` group average coerces to `0` under JS multiplication). -/
def overviewScoreNumerator (ms : List FeedbackRecord) : ℚ :=
  ((overviewGroups ms).map fun s => (groupScoreAvg ms s).getD 0 * sentCount ms s).sum

/-- The report's `summary` block. -/
structure OverviewSummary where
  totalFeedback : ℕ
  overallAvgRating : Option ℚ
  overallSentimentScore : Option ℚ
deriving DecidableEq

/-- `summary`: the two overall averages divide the weighted numerators by
`totalFeedback` with no zero-total guard; `toFixed` keeps a non-finite value
non-finite, so the rounding is mapped over the `jsDiv` result. -/
def getSentimentOverviewSummary (ms : List FeedbackRecord) : OverviewSummary where
  totalFeedback := overviewTotal ms
  overallAvgRating := (jsDiv (overviewRatingNumerator ms) (overviewTotal ms)).map (roundTo 2)
  overallSentimentScore := (jsDiv (overviewScoreNumerator ms) (overviewTotal ms)).map (roundTo 1)

/-! ## Pulse Metrics computation (report 7) -/

/-- The fields of the non-empty Pulse Metrics payload that the claims refer
to. -/
structure PulseData where
  csat : ℚ
  nps : ℚ
  ces : ℚ
  avgRating : ℚ
  totalFeedback : ℕ
  promoters : ℕ
  detractors : ℕ
  passives : ℤ
  satisfied : ℕ
  unsatisfied : ℤ
  positives : ℕ
  neutrals : ℕ
  negatives : ℕ
  performanceRating : String
deriving DecidableEq

/-- The body of `getPulseMetrics` past the empty-window early return,
transcribed clause by clause from the controller. -/
def pulseCompute (fb : List FeedbackRecord) : PulseData :=
  let n : ℕ := fb.length
  let satisfiedCount := (fb.filter fun r => decide (4 ≤ r.rating)).length
  let csat := roundTo 1 ((satisfiedCount : ℚ) / n * 100)
  let promoters := (fb.filter fun r => decide (r.rating = 5)).length
  let detractors := (fb.filter fun r => decide (r.rating ≤ 3)).length
  let nps := roundTo 1 (((promoters : ℚ) - detractors) / n * 100)
  let ces := roundTo 1 ((fb.map fun r => r.sentimentScore.getD 0).sum / n)
  let avgRating := roundTo 2 ((fb.map (·.rating)).sum / n)
  { csat := csat
    nps := nps
    ces := ces
    avgRating := avgRating
    totalFeedback := n
    promoters := promoters
    detractors := detractors
    passives := (n : ℤ) - promoters - detractors
    satisfied := satisfiedCount
    unsatisfied := (n : ℤ) - satisfiedCount
    positives := (fb.filter fun r => r.sentiment == some SentimentLabel.positive).length
    neutrals := (fb.filter fun r => r.sentiment == some SentimentLabel.neutral).length
    negatives := (fb.filter fun r => r.sentiment == some SentimentLabel.negative).length
    performanceRating :=
      if csat ≥ 90 ∧ nps ≥ 50 then "Excellent"
      else if csat ≥ 80 ∧ nps ≥ 30 then "Good"
      else if csat ≥ 70 ∧ nps ≥ 10 then "Average"
      else "Needs Improvement" }

/-- The full Pulse Metrics response: `feedback.length === 0` takes the early
return with an explicitly zeroed payload, otherwise the computed report. -/
inductive PulseResult where
  | emptyWindow (csat nps ces : ℚ) (totalFeedback : ℕ)
  | report (d : PulseData)
deriving DecidableEq

/-- `getPulseMetrics` applied to the records its query returned. -/
def getPulseMetrics (fb : List FeedbackRecord) : PulseResult :=
  if fb.length = 0 then .emptyWindow 0 0 0 0 else .report (pulseCompute fb)

/-! ## Actionable Insights computation (report 8)

`.sort({ urgency: 1, createdAt: -1 })` sorts by the stored urgency *string*
ascending (MongoDB compares strings lexicographically), breaking ties by
`createdAt` descending, then `.limit(limit)` truncates. -/

/-- The order `.sort({ urgency: 1, createdAt: -1 })` arranges records in:
urgency string lexicographically ascending, then `createdAt` descending. -/
def mongoInsightsLe (a b : FeedbackRecord) : Prop :=
  charListLt a.urgency.str.data b.urgency.str.data = true ∨
    (a.urgency.str = b.urgency.str ∧ b.createdAt ≤ a.createdAt)

instance mongoInsightsLe.instDecidableRel : DecidableRel mongoInsightsLe := fun a b => by
  unfold mongoInsightsLe; infer_instance

/-- `getActionableInsights`: select, sort by `{ urgency: 1, createdAt: -1 }`,
truncate to `limit`. -/
def getActionableInsights (urgency : Option Urgency) (serviceType : Option String)
    (lim : ℕ) (db : List FeedbackRecord) : List FeedbackRecord :=
  ((actionableInsightsQuery urgency serviceType db).insertionSort mongoInsightsLe).take lim

/-- The canonical urgency priority, from the urgency dashboard's explicit
`const urgencyOrder = { critical: 0, high: 1, medium: 2, low: 3 }`. -/
def urgencyOrder : Urgency → ℕ
  | .critical => 0
  | .high => 1
  | .medium => 2
  | .low => 3

/-- The position of each urgency string in lexicographic (alphabetical)
order: `'critical' < 'high' < 'low' < 'medium'`. -/
def alphaRank : Urgency → ℕ
  | .critical => 0
  | .high => 1
  | .low => 2
  | .medium => 3

/-! ## Derived predicates and concrete inputs used by the verification -/

/-- The shape guarantees that hold of every `AnalysisResult` the service
returns (AI path after validation, and heuristic path for in-range ratings):
valid sentiment and urgency labels, both scores within `[0, 100]`. -/
def coreValidShape (a : AnalysisResult) : Prop :=
  a.sentiment ∈ validSentiments ∧ 0 ≤ a.sentimentScore ∧ a.sentimentScore ≤ 100 ∧
    a.urgency ∈ validUrgencies ∧ 0 ≤ a.confidenceScore ∧ a.confidenceScore ≤ 100

/-- A well-formed AI response whose `categories` value is off the taxonomy and
whose `emotions` array is empty. -/
def rawOffTaxonomy : RawAnalysis where
  sentiment := some "positive"
  sentimentScore := some 70
  categories := some ["bogus_category"]
  emotions := some []
  urgency := some "low"
  actionableInsights := some "Escalate to the support team."
  confidenceScore := some 80

/-- An AI response carrying both scores present and equal to `0`. -/
def rawZeroScores : RawAnalysis where
  sentiment := some "negative"
  sentimentScore := some 0
  categories := some ["pricing"]
  emotions := some ["angry"]
  urgency := some "high"
  actionableInsights := some "Reduce the transfer fees."
  confidenceScore := some 0

/-- An AI response with every field present and already in range. -/
def rawInRange : RawAnalysis where
  sentiment := some "positive"
  sentimentScore := some 88
  categories := some ["service_quality"]
  emotions := some ["happy"]
  urgency := some "low"
  actionableInsights := some "Keep up the friendly branch staff."
  confidenceScore := some 92

/-- A stored feedback record with every analytics field populated. -/
def mkRecord (rating : ℚ) (sentiment : Option SentimentLabel) (score : Option ℚ)
    (urg : Urgency) (createdAt : ℤ) (insights : Option String) : FeedbackRecord where
  rating := rating
  serviceType := some "Mobile App"
  branch := some "Victoria Island"
  createdAt := createdAt
  status := Status.pending
  sentiment := sentiment
  sentimentScore := score
  categories := ["service_quality"]
  emotions := ["satisfied"]
  urgency := urg
  actionableInsights := insights

/-- A fixed reference instant (milliseconds) for window computations. -/
def nowMs : ℤ := 1700000000000

/-- The five records of the Pulse Metrics example, ratings `[5, 5, 4, 3, 1]`,
all created inside the 30-day window ending at `nowMs`. -/
def fb5 : List FeedbackRecord :=
  [mkRecord 5 (some SentimentLabel.positive) (some 100) Urgency.low (nowMs - 1000)
     (some "Expand the rewards program."),
   mkRecord 5 (some SentimentLabel.positive) (some 95) Urgency.low (nowMs - 2000)
     (some "Recognize the branch team."),
   mkRecord 4 (some SentimentLabel.positive) (some 80) Urgency.low (nowMs - 3000)
     (some "Streamline the app login."),
   mkRecord 3 (some SentimentLabel.neutral) (some 60) Urgency.low (nowMs - 4000)
     (some "Clarify the fee schedule."),
   mkRecord 1 (some SentimentLabel.negative) (some 20) Urgency.high (nowMs - 5000)
     (some "Investigate the failed transfers.")]

/-- An open (non-closed) record inside the default window, used to witness
the report-query lemmas. -/
def recOpen : FeedbackRecord :=
  mkRecord 5 (some SentimentLabel.positive) (some 90) Urgency.low (nowMs - 1000)
    (some "Keep the branch staffed at noon.")

/-- A medium-urgency record newer than `recLowOlder`. -/
def recMediumNewer : FeedbackRecord :=
  mkRecord 2 (some SentimentLabel.negative) (some 40) Urgency.medium 1000
    (some "Shorten the teller queue.")

/-- A low-urgency record older than `recMediumNewer`. -/
def recLowOlder : FeedbackRecord :=
  mkRecord 5 (some SentimentLabel.positive) (some 90) Urgency.low 0
    (some "Keep the app experience smooth.")

/-! ## Projection lemmas for the heuristic classifier -/

/-- The sentiment label `getFallbackAnalysis` derives from the rating. -/
theorem fallback_sentiment_def (c : String) (r : ℚ) :
    (getFallbackAnalysis c r).sentiment =
      if r ≥ 4 then "positive" else if r ≤ 2 then "negative" else "neutral" := rfl

/-- The sentiment score `getFallbackAnalysis` derives from the rating. -/
theorem fallback_score_def (c : String) (r : ℚ) :
    (getFallbackAnalysis c r).sentimentScore =
      if r ≥ 4 then r * 20 else if r ≤ 2 then r * 20 else 60 := rfl

/-- The urgency `getFallbackAnalysis` derives from rating and keywords. -/
theorem fallback_urgency_def (c : String) (r : ℚ) :
    (getFallbackAnalysis c r).urgency =
      if decide (r = 1) || includesSub (jsToLower c) "urgent" ||
          includesSub (jsToLower c) "immediately" then "high"
      else if decide (r = 2) then "medium"
      else "low" := rfl

/-- The heuristic path always reports confidence 60. -/
theorem fallback_confidence_def (c : String) (r : ℚ) :
    (getFallbackAnalysis c r).confidenceScore = 60 := rfl

/-! ## Shape lemmas shared by several claims -/

/-- Every output of `validateAnalysisResult` has a valid sentiment label, a
valid urgency label, and both scores clamped into `[0, 100]`. -/
theorem validate_core_shape (raw : RawAnalysis) :
    coreValidShape (validateAnalysisResult raw) := by
  refine ⟨?_, le_max_left _ _, max_le (by norm_num) (min_le_left _ _), ?_,
    le_max_left _ _, max_le (by norm_num) (min_le_left _ _)⟩
  · show (match raw.sentiment with
      | some s => if s ∈ validSentiments then s else "neutral"
      | none => "neutral") ∈ validSentiments
    cases raw.sentiment with
    | none => simp [validSentiments]
    | some s =>
      show (if s ∈ validSentiments then s else "neutral") ∈ validSentiments
      by_cases h : s ∈ validSentiments
      · rwa [if_pos h]
      · rw [if_neg h]; simp [validSentiments]
  · show (match raw.urgency with
      | some u => if u ∈ validUrgencies then u else "low"
      | none => "low") ∈ validUrgencies
    cases raw.urgency with
    | none => simp [validUrgencies]
    | some u =>
      show (if u ∈ validUrgencies then u else "low") ∈ validUrgencies
      by_cases h : u ∈ validUrgencies
      · rwa [if_pos h]
      · rw [if_neg h]; simp [validUrgencies]

/-- For a rating within the schema range `[1, 5]`, the heuristic fallback also
satisfies the core shape guarantees. -/
theorem fallback_core_shape (c : String) (r : ℚ) (h1 : 1 ≤ r) (h2 : r ≤ 5) :
    coreValidShape (getFallbackAnalysis c r) := by
  refine ⟨?_, ?_, ?_, ?_, ?_, ?_⟩
  · rw [fallback_sentiment_def]
    by_cases ha : r ≥ 4 <;> by_cases hb : r ≤ 2 <;> simp [ha, hb, validSentiments]
  · rw [fallback_score_def]
    by_cases ha : r ≥ 4 <;> by_cases hb : r ≤ 2 <;> simp only [ha, hb, if_true, if_false,
      if_pos, if_neg, not_false_iff] <;> first | linarith | norm_num
  · rw [fallback_score_def]
    by_cases ha : r ≥ 4 <;> by_cases hb : r ≤ 2 <;> simp only [ha, hb, if_true, if_false,
      if_pos, if_neg, not_false_iff] <;> first | linarith | norm_num
  · rw [fallback_urgency_def]
    by_cases ha : (decide (r = 1) || includesSub (jsToLower c) "urgent" ||
        includesSub (jsToLower c) "immediately") = true <;>
      by_cases hb : decide (r = 2) = true <;> simp [ha, hb, validUrgencies]
  · rw [fallback_confidence_def]; norm_num
  · rw [fallback_confidence_def]; norm_num

/-- C3 counterexample: on a response whose `categories` holds a value outside
the 10-value taxonomy and whose `emotions` is the empty array, the validator
passes both through unchanged, so its output is neither a subset of the
taxonomy nor non-empty. -/
theorem validate_taxonomy_counterexample :
    (validateAnalysisResult rawOffTaxonomy).categories = ["bogus_category"] ∧
      "bogus_category" ∉ categoryTaxonomy ∧
      (validateAnalysisResult rawOffTaxonomy).emotions = [] := by
  refine ⟨rfl, by decide, rfl⟩

/-- C3 (amended): the validator guarantees the label and score ranges, but
`categories` and `emotions` are only coerced to arrays (`[]` when not an
array) and are otherwise passed through unchanged: no taxonomy membership and
no non-emptiness is established, and `createFeedback` copies them verbatim. -/
theorem validate_guarantees (raw : RawAnalysis) :
    coreValidShape (validateAnalysisResult raw) ∧
      (validateAnalysisResult raw).categories = raw.categories.getD [] ∧
      (validateAnalysisResult raw).emotions = raw.emotions.getD [] :=
  ⟨validate_core_shape raw, rfl, rfl⟩

/-- C4 counterexample: a present score of `0` is falsy in
`analysis.sentimentScore || 50`, so the validator replaces it by the default
rather than preserving it; likewise a present confidence of `0` becomes 75. -/
theorem validate_zero_score_counterexample :
    (validateAnalysisResult rawZeroScores).sentimentScore = 50 ∧
      (validateAnalysisResult rawZeroScores).confidenceScore = 75 ∧
      (50 : ℚ) ≠ 0 := by
  refine ⟨?_, ?_, by norm_num⟩
  · show max 0 (min 100 (jsOrNum (some 0) 50)) = 50
    norm_num [jsOrNum]
  · show max 0 (min 100 (jsOrNum (some 0) 75)) = 75
    norm_num [jsOrNum]

/-- C4 (amended): `validateAnalysisResult` sets `sentimentScore` to
`clamp(x, 0, 100)` when the field is present with a non-zero `x`, and to the
default 50 when it is missing or `0` (a present `0` is falsy under `||`);
`confidenceScore` behaves the same with default 75. -/
theorem validate_score_clamp_and_default (raw : RawAnalysis) :
    (validateAnalysisResult raw).sentimentScore =
      (match raw.sentimentScore with
       | none => 50
       | some x => if x = 0 then 50 else max 0 (min 100 x)) ∧
    (validateAnalysisResult raw).confidenceScore =
      (match raw.confidenceScore with
       | none => 75
       | some x => if x = 0 then 75 else max 0 (min 100 x)) := by
  constructor
  · show max 0 (min 100 (jsOrNum raw.sentimentScore 50)) = _
    cases raw.sentimentScore with
    | none => norm_num [jsOrNum]
    | some x =>
      by_cases hx : x = 0 <;> simp [jsOrNum, hx] <;> norm_num
  · show max 0 (min 100 (jsOrNum raw.confidenceScore 75)) = _
    cases raw.confidenceScore with
    | none => norm_num [jsOrNum]
    | some x =>
      by_cases hx : x = 0 <;> simp [jsOrNum, hx] <;> norm_num

/-- C5: any failure of the external AI call makes `analyzeFeedbackSentiment`
return exactly the heuristic fallback result, and whatever the outcome the
function returns an `AnalysisResult` (the seven analysis fields) satisfying
the core shape guarantees — it never rejects to its caller. -/
theorem analyze_fallback_on_failure (c : String) (r : ℚ) (outcome : AICallOutcome)
    (h1 : 1 ≤ r) (h2 : r ≤ 5) :
    analyzeFeedbackSentiment c r AICallOutcome.failure = getFallbackAnalysis c r ∧
      coreValidShape (analyzeFeedbackSentiment c r outcome) := by
  refine ⟨rfl, ?_⟩
  cases outcome with
  | success raw => exact validate_core_shape raw
  | failure => exact fallback_core_shape c r h1 h2

/-- C5 witness at comment `"the app keeps crashing"`, rating 2, failed call. -/
theorem analyze_fallback_on_failure_witness :
    analyzeFeedbackSentiment "the app keeps crashing" 2 AICallOutcome.failure =
        getFallbackAnalysis "the app keeps crashing" 2 ∧
      coreValidShape (analyzeFeedbackSentiment "the app keeps crashing" 2
        AICallOutcome.failure) :=
  analyze_fallback_on_failure "the app keeps crashing" 2 AICallOutcome.failure
    (by norm_num) (by norm_num)

/-- C6: on the heuristic path, a rating in `{1,2,3,4,5}` at least 4 gives
sentiment `positive` with score `rating × 20`, at most 2 gives `negative`
with score `rating × 20`, and exactly 3 gives `neutral` with score 60. -/
theorem fallback_sentiment_score_rule (c : String) (r : ℚ)
    (h : r = 1 ∨ r = 2 ∨ r = 3 ∨ r = 4 ∨ r = 5) :
    (4 ≤ r → (getFallbackAnalysis c r).sentiment = "positive" ∧
        (getFallbackAnalysis c r).sentimentScore = r * 20) ∧
      (r ≤ 2 → (getFallbackAnalysis c r).sentiment = "negative" ∧
        (getFallbackAnalysis c r).sentimentScore = r * 20) ∧
      (r = 3 → (getFallbackAnalysis c r).sentiment = "neutral" ∧
        (getFallbackAnalysis c r).sentimentScore = 60) := by
  simp only [fallback_sentiment_def, fallback_score_def]
  rcases h with rfl | rfl | rfl | rfl | rfl <;> norm_num

/-- C6 witness at rating 5. -/
theorem fallback_sentiment_score_rule_witness :
    (4 ≤ (5 : ℚ) → (getFallbackAnalysis "very happy with the service" 5).sentiment = "positive" ∧
        (getFallbackAnalysis "very happy with the service" 5).sentimentScore = 5 * 20) ∧
      ((5 : ℚ) ≤ 2 → (getFallbackAnalysis "very happy with the service" 5).sentiment = "negative" ∧
        (getFallbackAnalysis "very happy with the service" 5).sentimentScore = 5 * 20) ∧
      ((5 : ℚ) = 3 → (getFallbackAnalysis "very happy with the service" 5).sentiment = "neutral" ∧
        (getFallbackAnalysis "very happy with the service" 5).sentimentScore = 60) :=
  fallback_sentiment_score_rule "very happy with the service" 5 (by norm_num)

/-- C7: the heuristic urgency is `high` exactly when the rating is 1 or the
lower-cased comment contains `"urgent"` or `"immediately"`; otherwise it is
`medium` exactly when the rating is 2, and `low` in every remaining case; no
input yields `critical`. -/
theorem fallback_urgency_rule (c : String) (r : ℚ) :
    ((getFallbackAnalysis c r).urgency = "high" ↔
        (r = 1 ∨ includesSub (jsToLower c) "urgent" = true ∨
          includesSub (jsToLower c) "immediately" = true)) ∧
      (¬(r = 1 ∨ includesSub (jsToLower c) "urgent" = true ∨
          includesSub (jsToLower c) "immediately" = true) →
        ((getFallbackAnalysis c r).urgency = "medium" ↔ r = 2)) ∧
      (¬(r = 1 ∨ includesSub (jsToLower c) "urgent" = true ∨
          includesSub (jsToLower c) "immediately" = true) → r ≠ 2 →
        (getFallbackAnalysis c r).urgency = "low") ∧
      (getFallbackAnalysis c r).urgency ≠ "critical" := by
  simp only [fallback_urgency_def]
  by_cases h1 : r = 1 <;> by_cases h2 : includesSub (jsToLower c) "urgent" = true <;>
    by_cases h3 : includesSub (jsToLower c) "immediately" = true <;>
    by_cases h4 : r = 2 <;>
    simp [h1, h2, h3, h4] <;> decide

/-! ## Pulse Metrics (C1) -/

/-- `csat` as computed: `((satisfied / total) * 100).toFixed(1)`. -/
theorem pulseCompute_csat (fb : List FeedbackRecord) :
    (pulseCompute fb).csat =
      roundTo 1 (((fb.filter fun r => decide (4 ≤ r.rating)).length : ℚ) / fb.length * 100) := rfl

/-- `nps` as computed: `(((promoters - detractors) / total) * 100).toFixed(1)`. -/
theorem pulseCompute_nps (fb : List FeedbackRecord) :
    (pulseCompute fb).nps =
      roundTo 1 ((((fb.filter fun r => decide (r.rating = 5)).length : ℚ) -
        ((fb.filter fun r => decide (r.rating ≤ 3)).length : ℚ)) / fb.length * 100) := rfl

/-- C1 counterexample: over the five in-window records with ratings
`[5,5,4,3,1]`, ratings `3` and `1` are both detractors (`rating ≤ 3`), so the
code returns detractors = 2 (not 1), passives = 1 (not 2), NPS = 0.0 (not
20.0), and CSAT = 60.0 (not 40.0: three ratings are ≥ 4). -/
theorem pulse_fb5_counterexample :
    (pulseCompute fb5).detractors = 2 ∧ (2 : ℕ) ≠ 1 ∧
      (pulseCompute fb5).passives = 1 ∧ (1 : ℤ) ≠ 2 ∧
      (pulseCompute fb5).nps = 0 ∧ (0 : ℚ) ≠ 20 ∧
      (pulseCompute fb5).csat = 60 ∧ (60 : ℚ) ≠ 40 := by
  have hs : (fb5.filter fun r => decide (4 ≤ r.rating)).length = 3 := by decide
  have hp : (fb5.filter fun r => decide (r.rating = 5)).length = 2 := by decide
  have hd : (fb5.filter fun r => decide (r.rating ≤ 3)).length = 2 := by decide
  have hn : fb5.length = 5 := by decide
  refine ⟨by decide, by decide, by decide, by decide, ?_, by norm_num, ?_, by norm_num⟩
  · rw [pulseCompute_nps, hp, hd, hn]
    norm_num [roundTo, round_eq]
  · rw [pulseCompute_csat, hs, hn]
    norm_num [roundTo, round_eq]

/-- C1 (amended): over exactly those five records (all selected by the pulse
query at `nowMs`), the computed values are CSAT = 60.0, NPS = 0.0,
promoters = 2, detractors = 2, passives = 1, with CSAT = 100 × (count with
rating ≥ 4) / total, promoters = ratings of 5, detractors = ratings ≤ 3, and
passives = total − promoters − detractors. -/
theorem pulse_fb5_report :
    pulseMetricsQuery nowMs 30 fb5 = fb5 ∧
      getPulseMetrics fb5 = PulseResult.report (pulseCompute fb5) ∧
      (pulseCompute fb5).csat = 60 ∧
      (pulseCompute fb5).nps = 0 ∧
      (pulseCompute fb5).promoters = 2 ∧
      (pulseCompute fb5).detractors = 2 ∧
      (pulseCompute fb5).passives = 1 := by
  have hs : (fb5.filter fun r => decide (4 ≤ r.rating)).length = 3 := by decide
  have hp : (fb5.filter fun r => decide (r.rating = 5)).length = 2 := by decide
  have hd : (fb5.filter fun r => decide (r.rating ≤ 3)).length = 2 := by decide
  have hn : fb5.length = 5 := by decide
  refine ⟨by decide, rfl, ?_, ?_, by decide, by decide, by decide⟩
  · rw [pulseCompute_csat, hs, hn]
    norm_num [roundTo, round_eq]
  · rw [pulseCompute_nps, hp, hd, hn]
    norm_num [roundTo, round_eq]

/-! ## Actionable Insights ordering (C2) -/

/-- On the four stored urgency strings, MongoDB's lexicographic comparison
realises the alphabetical ranking `critical < high < low < medium`. -/
theorem charListLt_urgency_str (u v : Urgency) :
    charListLt u.str.data v.str.data = true ↔ alphaRank u < alphaRank v := by
  cases u <;> cases v <;> decide

/-- Distinct urgency levels are stored as distinct strings. -/
theorem urgency_str_inj (u v : Urgency) : u.str = v.str ↔ u = v := by
  cases u <;> cases v <;> decide

/-- `alphaRank` is injective. -/
theorem alphaRank_inj (u v : Urgency) : alphaRank u = alphaRank v ↔ u = v := by
  cases u <;> cases v <;> decide

/-- The sort key of `.sort({ urgency: 1, createdAt: -1 })`, stated through the
alphabetical rank. -/
theorem mongoInsightsLe_iff (a b : FeedbackRecord) :
    mongoInsightsLe a b ↔ (alphaRank a.urgency < alphaRank b.urgency ∨
      (a.urgency = b.urgency ∧ b.createdAt ≤ a.createdAt)) := by
  unfold mongoInsightsLe
  rw [charListLt_urgency_str, urgency_str_inj]

instance mongoInsightsLe.instIsTrans : IsTrans FeedbackRecord mongoInsightsLe := by
  constructor
  intro a b c hab hbc
  rw [mongoInsightsLe_iff] at hab hbc ⊢
  rcases hab with h | ⟨he, hc1⟩ <;> rcases hbc with h2 | ⟨he2, hc2⟩
  · exact Or.inl (h.trans h2)
  · exact Or.inl (he2 ▸ h)
  · exact Or.inl (he ▸ h2)
  · exact Or.inr ⟨he.trans he2, hc2.trans hc1⟩

instance mongoInsightsLe.instIsTotal : IsTotal FeedbackRecord mongoInsightsLe := by
  constructor
  intro a b
  rw [mongoInsightsLe_iff, mongoInsightsLe_iff]
  rcases lt_trichotomy (alphaRank a.urgency) (alphaRank b.urgency) with h | h | h
  · exact Or.inl (Or.inl h)
  · have he : a.urgency = b.urgency := (alphaRank_inj _ _).mp h
    rcases le_total b.createdAt a.createdAt with hc | hc
    · exact Or.inl (Or.inr ⟨he, hc⟩)
    · exact Or.inr (Or.inr ⟨he.symm, hc⟩)
  · exact Or.inr (Or.inl h)

/-- C2 counterexample: with only a medium-urgency record (newer) and a
low-urgency record (older) in the store, `.sort({ urgency: 1 })` compares the
strings alphabetically (`'low' < 'medium'`), so the low-urgency record comes
first — the canonical priority `critical > high > medium > low` (the urgency
dashboard's explicit `urgencyOrder`) would place the medium-urgency record
first. -/
theorem insights_alphabetical_counterexample :
    getActionableInsights none none 10 [recMediumNewer, recLowOlder] =
        [recLowOlder, recMediumNewer] ∧
      ¬ List.Pairwise (fun a b => urgencyOrder a.urgency ≤ urgencyOrder b.urgency)
        [recLowOlder, recMediumNewer] := by
  constructor
  · decide
  · decide

/-- C2 (amended): the Actionable Insights report returns only records with a
present, non-empty `actionableInsights`, at most `limit` of them, ordered by
the urgency string lexicographically ascending (`critical`, `high`, `low`,
`medium` — alphabetical, not the canonical priority) and by `createdAt`
newest-first within equal urgency. -/
theorem insights_query_ordering (urgF : Option Urgency) (svcF : Option String) (lim : ℕ)
    (db : List FeedbackRecord) :
    (∀ r ∈ getActionableInsights urgF svcF lim db,
        r.actionableInsights ≠ none ∧ r.actionableInsights ≠ some "") ∧
      (getActionableInsights urgF svcF lim db).length ≤ lim ∧
      List.Pairwise (fun a b => alphaRank a.urgency < alphaRank b.urgency ∨
          (a.urgency = b.urgency ∧ b.createdAt ≤ a.createdAt))
        (getActionableInsights urgF svcF lim db) := by
  refine ⟨?_, List.length_take_le _ _, ?_⟩
  · intro r hr
    have h1 : r ∈ (actionableInsightsQuery urgF svcF db).insertionSort mongoInsightsLe :=
      (List.take_sublist _ _).subset hr
    have hq : r ∈ actionableInsightsQuery urgF svcF db :=
      (List.perm_insertionSort mongoInsightsLe _).subset h1
    rw [actionableInsightsQuery, List.mem_filter] at hq
    have hcond := hq.2
    simp only [Bool.and_eq_true] at hcond
    have hins := hcond.1.1.2
    cases hi : r.actionableInsights with
    | none => rw [hi] at hins; simp [Option.elim] at hins
    | some s =>
      rw [hi] at hins
      simp only [Option.elim, bne_iff_ne, ne_eq] at hins
      exact ⟨by simp [hi], by simp [hi, hins]⟩
  · have hs : List.Sorted mongoInsightsLe
        ((actionableInsightsQuery urgF svcF db).insertionSort mongoInsightsLe) :=
      List.sorted_insertionSort mongoInsightsLe _
    have ht : List.Pairwise mongoInsightsLe (getActionableInsights urgF svcF lim db) :=
      List.Pairwise.sublist (List.take_sublist _ _) hs
    exact ht.imp fun h => (mongoInsightsLe_iff _ _).mp h

/-! ## Closed-record exclusion (C8) -/

/-- C8: a record selected by any of the nine report queries — the seven
aggregation pipelines (whose `pre('aggregate')` hook unshifts the exclusion
`$match`) and the two `find`-based reports (whose `pre(/^find/)` hook merges
the same predicate) — never has `status = closed`. -/
theorem reports_exclude_closed (now days : ℤ) (f : DateFilter) (svc br : Option String)
    (urgF : Option Urgency) (db : List FeedbackRecord) (r : FeedbackRecord)
    (h : r ∈ sentimentOverviewQuery now f svc br db ∨
      r ∈ serviceTypeMetricsQuery f db ∨
      r ∈ sentimentTrendsQuery now days db ∨
      r ∈ categoryInsightsQuery f db ∨
      r ∈ emotionAnalysisQuery f svc db ∨
      r ∈ urgencyDashboardQuery db ∨
      r ∈ pulseMetricsQuery now days db ∨
      r ∈ actionableInsightsQuery urgF svc db ∨
      r ∈ branchComparisonQuery now days f db) :
    r.status ≠ Status.closed := by
  rcases h with h | h | h | h | h | h | h | h | h <;>
    simp only [sentimentOverviewQuery, serviceTypeMetricsQuery, sentimentTrendsQuery,
      categoryInsightsQuery, emotionAnalysisQuery, urgencyDashboardQuery, pulseMetricsQuery,
      actionableInsightsQuery, branchComparisonQuery, List.mem_filter, Bool.and_eq_true,
      notClosed, decide_eq_true_eq] at h <;>
    tauto

/-- C8 witness: a concrete open record is selected by the sentiment-overview
query over a one-record store, and the exclusion lemma applies to it. -/
theorem reports_exclude_closed_witness :
    (recOpen ∈ sentimentOverviewQuery nowMs ⟨none, none⟩ none none [recOpen] ∨
      recOpen ∈ serviceTypeMetricsQuery ⟨none, none⟩ [recOpen] ∨
      recOpen ∈ sentimentTrendsQuery nowMs 30 [recOpen] ∨
      recOpen ∈ categoryInsightsQuery ⟨none, none⟩ [recOpen] ∨
      recOpen ∈ emotionAnalysisQuery ⟨none, none⟩ none [recOpen] ∨
      recOpen ∈ urgencyDashboardQuery [recOpen] ∨
      recOpen ∈ pulseMetricsQuery nowMs 30 [recOpen] ∨
      recOpen ∈ actionableInsightsQuery none none [recOpen] ∨
      recOpen ∈ branchComparisonQuery nowMs 30 ⟨none, none⟩ [recOpen]) ∧
      recOpen.status ≠ Status.closed :=
  ⟨Or.inl (by decide),
    reports_exclude_closed nowMs 30 ⟨none, none⟩ none none none [recOpen] recOpen
      (Or.inl (by decide))⟩

/-! ## Sentiment Overview percentage sum (C9) -/

/-- Rounding `0` to any number of decimals gives `0`. -/
theorem roundTo_zero (d : ℕ) : roundTo d 0 = 0 := by simp [roundTo]

/-- `toFixed d` moves a value by at most half of the last kept decimal. -/
theorem abs_roundTo_sub (d : ℕ) (x : ℚ) : |roundTo d x - x| ≤ 1 / (2 * 10 ^ d) := by
  have hp : (0 : ℚ) < 10 ^ d := by positivity
  have key : roundTo d x - x = ((round (x * 10 ^ d) : ℚ) - x * 10 ^ d) / 10 ^ d := by
    unfold roundTo; field_simp; ring
  have h2 : |(round (x * 10 ^ d) : ℚ) - x * 10 ^ d| ≤ 1 / 2 := by
    rw [abs_sub_comm]; exact abs_sub_round (x * 10 ^ d)
  rw [key, abs_div, abs_of_pos hp]
  calc |(round (x * 10 ^ d) : ℚ) - x * 10 ^ d| / 10 ^ d ≤ (1 / 2) / 10 ^ d := by gcongr
    _ = 1 / (2 * 10 ^ d) := by ring

/-- Every record the sentiment-overview query selects has been analyzed
(`sentiment: { $exists: true, $ne: null }`). -/
theorem mem_sentimentOverviewQuery_isSome (now : ℤ) (f : DateFilter) (svc br : Option String)
    (db : List FeedbackRecord) (r : FeedbackRecord)
    (h : r ∈ sentimentOverviewQuery now f svc br db) : r.sentiment.isSome := by
  rw [sentimentOverviewQuery, List.mem_filter] at h
  have hc := h.2
  simp only [Bool.and_eq_true] at hc
  exact hc.1.1.1.2

/-- Over records that all carry a sentiment, the three per-label counts
partition the list. -/
theorem sentCount_partition (ms : List FeedbackRecord)
    (h : ∀ r ∈ ms, r.sentiment.isSome) :
    sentCount ms SentimentLabel.positive + sentCount ms SentimentLabel.neutral +
      sentCount ms SentimentLabel.negative = ms.length := by
  induction ms with
  | nil => rfl
  | cons a t ih =>
    have ha : a.sentiment.isSome := h a (by simp)
    have ht : ∀ r ∈ t, r.sentiment.isSome := fun r hr => h r (by simp [hr])
    have iht := ih ht
    cases hs : a.sentiment with
    | none => rw [hs] at ha; simp at ha
    | some s =>
      cases s <;> (simp [sentCount, List.filter_cons, hs]; simp [sentCount] at iht; omega)

/-- When every selected record has a sentiment, the reduce over the emitted
groups recovers the size of the selection. -/
theorem overviewTotal_eq_length (ms : List FeedbackRecord)
    (h : ∀ r ∈ ms, r.sentiment.isSome) : overviewTotal ms = ms.length := by
  have hpart := sentCount_partition ms h
  unfold overviewTotal overviewGroups sortedSentLabels
  by_cases h1 : sentCount ms SentimentLabel.negative = 0 <;>
    by_cases h2 : sentCount ms SentimentLabel.neutral = 0 <;>
    by_cases h3 : sentCount ms SentimentLabel.positive = 0 <;>
    simp [h1, h2, h3] <;> omega

/-- Dropping list entries on which the summand vanishes keeps a sum. -/
theorem sum_map_filter_of_zero {α : Type} (l : List α) (p : α → Bool) (f : α → ℚ)
    (h : ∀ s ∈ l, p s = false → f s = 0) :
    ((l.filter p).map f).sum = (l.map f).sum := by
  induction l with
  | nil => rfl
  | cons a t ih =>
    have ht : ∀ s ∈ t, p s = false → f s = 0 := fun s hs => h s (by simp [hs])
    by_cases hp : p a = true
    · simp [List.filter_cons, hp, ih ht]
    · have hz : f a = 0 := h a (by simp) (by simpa using hp)
      simp [List.filter_cons, hp, hz, ih ht]

/-- The emitted percentages sum like the percentages of all three labels
(absent labels would contribute a rounded `0`). -/
theorem overviewPercentageSum_eq_three (ms : List FeedbackRecord) :
    overviewPercentageSum ms =
      overviewPercentage ms SentimentLabel.negative +
        overviewPercentage ms SentimentLabel.neutral +
        overviewPercentage ms SentimentLabel.positive := by
  unfold overviewPercentageSum overviewGroups
  rw [sum_map_filter_of_zero]
  · simp [sortedSentLabels]; ring
  · intro s _ hps
    have h0 : sentCount ms s = 0 := by simpa using hps
    simp [overviewPercentage, h0, roundTo_zero]

/-- C9: whenever the sentiment-overview selection is non-empty, the emitted
group percentages (each `((count/total)*100).toFixed(2)`) sum to 100 within
±0.1. -/
theorem overview_percentages_sum_within (now : ℤ) (f : DateFilter) (svc br : Option String)
    (db : List FeedbackRecord)
    (h : sentimentOverviewQuery now f svc br db ≠ []) :
    |overviewPercentageSum (sentimentOverviewQuery now f svc br db) - 100| ≤ 1 / 10 := by
  set ms := sentimentOverviewQuery now f svc br db with hms
  have hsome : ∀ r ∈ ms, r.sentiment.isSome := fun r hr =>
    mem_sentimentOverviewQuery_isSome now f svc br db r (hms ▸ hr)
  have hlen : 0 < ms.length := List.length_pos.mpr h
  have htot : overviewTotal ms = ms.length := overviewTotal_eq_length ms hsome
  have hpart := sentCount_partition ms hsome
  have htpos : 0 < overviewTotal ms := by omega
  have hsumN : sentCount ms SentimentLabel.negative + sentCount ms SentimentLabel.neutral +
      sentCount ms SentimentLabel.positive = overviewTotal ms := by omega
  have hn0 : (0 : ℚ) < (overviewTotal ms : ℚ) := by exact_mod_cast htpos
  have hcast : (sentCount ms SentimentLabel.negative : ℚ) +
      (sentCount ms SentimentLabel.neutral : ℚ) +
      (sentCount ms SentimentLabel.positive : ℚ) = (overviewTotal ms : ℚ) := by
    exact_mod_cast hsumN
  have hx : (sentCount ms SentimentLabel.negative : ℚ) / (overviewTotal ms : ℚ) * 100 +
      (sentCount ms SentimentLabel.neutral : ℚ) / (overviewTotal ms : ℚ) * 100 +
      (sentCount ms SentimentLabel.positive : ℚ) / (overviewTotal ms : ℚ) * 100 = 100 := by
    field_simp
    linear_combination (100 : ℚ) * hcast
  have e1 : overviewPercentage ms SentimentLabel.negative =
      roundTo 2 ((sentCount ms SentimentLabel.negative : ℚ) / (overviewTotal ms : ℚ) * 100) := by
    unfold overviewPercentage; rw [if_pos htpos]
  have e2 : overviewPercentage ms SentimentLabel.neutral =
      roundTo 2 ((sentCount ms SentimentLabel.neutral : ℚ) / (overviewTotal ms : ℚ) * 100) := by
    unfold overviewPercentage; rw [if_pos htpos]
  have e3 : overviewPercentage ms SentimentLabel.positive =
      roundTo 2 ((sentCount ms SentimentLabel.positive : ℚ) / (overviewTotal ms : ℚ) * 100) := by
    unfold overviewPercentage; rw [if_pos htpos]
  have b1 := abs_roundTo_sub 2 ((sentCount ms SentimentLabel.negative : ℚ) /
    (overviewTotal ms : ℚ) * 100)
  have b2 := abs_roundTo_sub 2 ((sentCount ms SentimentLabel.neutral : ℚ) /
    (overviewTotal ms : ℚ) * 100)
  have b3 := abs_roundTo_sub 2 ((sentCount ms SentimentLabel.positive : ℚ) /
    (overviewTotal ms : ℚ) * 100)
  rw [overviewPercentageSum_eq_three, e1, e2, e3]
  have key : roundTo 2 ((sentCount ms SentimentLabel.negative : ℚ) / (overviewTotal ms : ℚ) * 100) +
      roundTo 2 ((sentCount ms SentimentLabel.neutral : ℚ) / (overviewTotal ms : ℚ) * 100) +
      roundTo 2 ((sentCount ms SentimentLabel.positive : ℚ) / (overviewTotal ms : ℚ) * 100) - 100 =
      (roundTo 2 ((sentCount ms SentimentLabel.negative : ℚ) / (overviewTotal ms : ℚ) * 100) -
        (sentCount ms SentimentLabel.negative : ℚ) / (overviewTotal ms : ℚ) * 100) +
      (roundTo 2 ((sentCount ms SentimentLabel.neutral : ℚ) / (overviewTotal ms : ℚ) * 100) -
        (sentCount ms SentimentLabel.neutral : ℚ) / (overviewTotal ms : ℚ) * 100) +
      (roundTo 2 ((sentCount ms SentimentLabel.positive : ℚ) / (overviewTotal ms : ℚ) * 100) -
        (sentCount ms SentimentLabel.positive : ℚ) / (overviewTotal ms : ℚ) * 100) := by
    linear_combination hx
  rw [key]
  refine (abs_add_three _ _ _).trans ?_
  refine (add_le_add (add_le_add b1 b2) b3).trans ?_
  norm_num

/-- C9 witness over a one-record store. -/
theorem overview_percentages_sum_within_witness :
    (sentimentOverviewQuery nowMs ⟨none, none⟩ none none [recOpen] ≠ []) ∧
      |overviewPercentageSum (sentimentOverviewQuery nowMs ⟨none, none⟩ none none [recOpen]) -
        100| ≤ 1 / 10 :=
  ⟨by decide, overview_percentages_sum_within nowMs ⟨none, none⟩ none none [recOpen] (by decide)⟩

/-! ## Empty-selection summary division (C10) -/

/-- C10: when the sentiment-overview filter matches no record, the summary's
two overall averages are `0/0` with no zero-guard — a non-finite value
(`none`), not a zeroed number — while `getPulseMetrics` on an empty window
takes its explicit early return with zeroed metrics. -/
theorem overview_empty_summary (now : ℤ) (f : DateFilter) (svc br : Option String)
    (db : List FeedbackRecord)
    (h : sentimentOverviewQuery now f svc br db = []) :
    (getSentimentOverviewSummary (sentimentOverviewQuery now f svc br db)).totalFeedback = 0 ∧
      (getSentimentOverviewSummary (sentimentOverviewQuery now f svc br db)).overallAvgRating =
        none ∧
      (getSentimentOverviewSummary
        (sentimentOverviewQuery now f svc br db)).overallSentimentScore = none ∧
      (getSentimentOverviewSummary (sentimentOverviewQuery now f svc br db)).overallAvgRating ≠
        some 0 ∧
      getPulseMetrics [] = PulseResult.emptyWindow 0 0 0 0 := by
  rw [h]
  refine ⟨rfl, ?_, ?_, ?_, rfl⟩ <;>
    simp [getSentimentOverviewSummary, jsDiv, overviewTotal, overviewGroups, sentCount,
      sortedSentLabels]

/-- C10 witness at the empty store. -/
theorem overview_empty_summary_witness :
    (sentimentOverviewQuery nowMs ⟨none, none⟩ none none [] = []) ∧
      ((getSentimentOverviewSummary
          (sentimentOverviewQuery nowMs ⟨none, none⟩ none none [])).totalFeedback = 0 ∧
        (getSentimentOverviewSummary
          (sentimentOverviewQuery nowMs ⟨none, none⟩ none none [])).overallAvgRating = none ∧
        (getSentimentOverviewSummary
          (sentimentOverviewQuery nowMs ⟨none, none⟩ none none [])).overallSentimentScore =
          none ∧
        (getSentimentOverviewSummary
          (sentimentOverviewQuery nowMs ⟨none, none⟩ none none [])).overallAvgRating ≠
          some 0 ∧
        getPulseMetrics [] = PulseResult.emptyWindow 0 0 0 0) :=
  ⟨rfl, overview_empty_summary nowMs ⟨none, none⟩ none none [] rfl⟩

end FeedbackForge
